import Mathlib

/-!
Verification development for the telecom-cart-api repository.

The embedding models the two core components of the service:

* `SalesforceCartClient` — the simulated external context provider
  (src/services/salesforce-client.ts): contexts with TTL-based expiry and a
  per-context item store.
* `CartService` — the orchestrator (src/services/cart.ts): a shadow item
  store per cart, a context cache, expiry detection and recovery, business
  rules, and pricing.

JavaScript `Map`s are modelled as association lists with `Map.get`/`Map.set`
semantics; `number` is modelled as `ℚ` with `toFixed(2)`-style rounding made
explicit; `new Date()` is modelled by an integer millisecond timestamp `now`
passed to each operation; thrown exceptions become `Except` results, and each
orchestrator operation also returns the (possibly mutated) state, matching the
fact that a thrown JS exception does not roll back earlier mutations.
`nanoid` identifier generation is modelled by a deterministic counter.
-/

set_option autoImplicit false

namespace TelecomCart

/-- Lookup in an association list, modelling `Map.get` (JS Map keys are unique). -/
def findAssoc {α : Type} : List (String × α) → String → Option α
  | [], _ => none
  | (k1, v) :: rest, k => if k1 = k then some v else findAssoc rest k

/-- Insert-or-replace in an association list, modelling `Map.set`: an existing
key keeps its position, a new key is appended. -/
def setAssoc {α : Type} : List (String × α) → String → α → List (String × α)
  | [], k, v => [(k, v)]
  | (k1, v1) :: rest, k, v =>
    if k1 = k then (k, v) :: rest else (k1, v1) :: setAssoc rest k v

/-- `Number(x.toFixed(2))` on exact decimal inputs: round to 2 decimal places,
ties toward positive infinity (for the non-negative amounts of this system this
is exactly "round half away from zero"). -/
def round2 (x : ℚ) : ℚ := ((⌊x * 100 + 1/2⌋ : ℤ) : ℚ) / 100

/-- Tax rate from src/config (default, `TAX_RATE` unset): 13%. -/
def taxRate : ℚ := 13/100

/-- Maximum items per cart from src/config (default, `MAX_ITEMS_PER_CART` unset). -/
def maxItemsPerCart : Nat := 50

/-- A cart line item (src/types/cart.ts `CartItem`). `productType` is kept as a
string exactly as the code compares it (`item.productType === 'PHONE'`). -/
structure CartItem where
  id : String
  productId : String
  productName : String
  productType : String
  quantity : ℚ
  unitPrice : ℚ
  totalPrice : ℚ
deriving DecidableEq

/-- src/types/cart.ts `AddItemRequest`: a `CartItem` without an id. -/
structure AddItemRequest where
  productId : String
  productName : String
  productType : String
  quantity : ℚ
  unitPrice : ℚ
  totalPrice : ℚ
deriving DecidableEq

/-- Catalog entry (src/types/product.ts `Product`). -/
structure Product where
  id : String
  name : String
  type : String
  price : ℚ
  requiresPhone : Bool := false
deriving DecidableEq

/-- src/types/salesforce.ts `SalesforceContext`. Timestamps in milliseconds. -/
structure SalesforceContext where
  contextId : String
  cartId : String
  expiresAt : ℤ
  createdAt : ℤ
deriving DecidableEq

/-- src/types/cart.ts `ValidationResult`. -/
structure ValidationResult where
  valid : Bool
  errors : List String
deriving DecidableEq

/-- Result of `canAddItemType`. -/
structure CanAddResult where
  allowed : Bool
  reason : Option String := none
deriving DecidableEq

/-- The errors the core can throw: `NotFoundError(resource, id)`,
`Error('SF_CONTEXT_EXPIRED')`, `Error('ITEM_NOT_FOUND')`, and the generic
`Error(reason)` used for business-rule violations in `CartService.addItem`. -/
inductive CartError where
  | notFound (resource : String) (id : String)
  | sfContextExpired
  | itemNotFound
  | businessRule (reason : String)
deriving DecidableEq

/-- `Number.isInteger` on our rational model of JS numbers. -/
def isIntegerQty (q : ℚ) : Bool := q.den == 1

/-- src/utils/cart.ts `calculateItemTotal`. -/
def calculateItemTotal (unitPrice quantity : ℚ) : ℚ := round2 (unitPrice * quantity)

/-- src/utils/cart.ts `calculateSubtotal`. -/
def calculateSubtotal (items : List CartItem) : ℚ :=
  round2 (items.foldl (fun sum item => sum + item.totalPrice) 0)

/-- src/utils/cart.ts `calculateTax`. -/
def calculateTax (subtotal : ℚ) : ℚ := round2 (subtotal * taxRate)

/-- src/utils/cart.ts `calculateTotal`. -/
def calculateTotal (subtotal tax : ℚ) : ℚ := round2 (subtotal + tax)

def msgMaxItemsValidate : String :=
  "Cart exceeds maximum of " ++ toString maxItemsPerCart ++ " items"

def msgMaxItemsAdd : String :=
  "Cart has reached maximum of " ++ toString maxItemsPerCart ++ " items"

def msgOnePhone : String := "Only one phone is allowed per cart"

def msgOnePlan : String := "Only one plan is allowed per cart"

def msgPlanNoPhone : String := "Cart contains plans but no phone. Plans require a phone."

def msgInvalidQty : String := "Cart contains items with invalid quantities"

/-- src/utils/cart.ts `validateCartRules`: pushes violation messages onto the
errors array in the source order (max items, plan-without-phone, multiple
phones, multiple plans, invalid quantities). -/
def validateCartRules (items : List CartItem) : ValidationResult :=
  let errors1 : List String :=
    if maxItemsPerCart < items.length then [msgMaxItemsValidate] else []
  let hasPhone := items.any (fun item => item.productType == "PHONE")
  let plans := items.filter (fun item => item.productType == "PLAN")
  let errors2 :=
    if 0 < plans.length ∧ hasPhone = false then errors1 ++ [msgPlanNoPhone] else errors1
  let phoneCount := (items.filter (fun item => item.productType == "PHONE")).length
  let errors3 := if 1 < phoneCount then errors2 ++ [msgOnePhone] else errors2
  let errors4 := if 1 < plans.length then errors3 ++ [msgOnePlan] else errors3
  let invalidQuantities :=
    items.filter (fun item => decide (item.quantity ≤ 0) || !(isIntegerQty item.quantity))
  let errors5 := if 0 < invalidQuantities.length then errors4 ++ [msgInvalidQty] else errors4
  { valid := errors5.length == 0, errors := errors5 }

/-- src/utils/cart.ts `canAddItemType`: max-items ceiling, then the phone
cardinality rule, then the plan cardinality rule, with early return. -/
def canAddItemType (items : List CartItem) (productType : String) : CanAddResult :=
  if maxItemsPerCart ≤ items.length then
    { allowed := false, reason := some msgMaxItemsAdd }
  else if productType = "PHONE" ∧
      1 ≤ (items.filter (fun item => item.productType == "PHONE")).length then
    { allowed := false, reason := some msgOnePhone }
  else if productType = "PLAN" ∧
      1 ≤ (items.filter (fun item => item.productType == "PLAN")).length then
    { allowed := false, reason := some msgOnePlan }
  else { allowed := true }

/-- State of the simulated Salesforce provider
(src/services/salesforce-client.ts `SalesforceCartClient`): the `contexts` and
`cartItems` maps, the configured TTL, and a counter modelling `nanoid`. -/
structure SalesforceCartClient where
  contexts : List (String × SalesforceContext)
  cartItems : List (String × List CartItem)
  contextTTL : ℤ
  nextId : Nat
deriving DecidableEq

/-- `SalesforceCartClient.createContext`: fresh context id, expiry
`now + contextTTL`, empty item store. Always succeeds. -/
def SalesforceCartClient.createContext (s : SalesforceCartClient) (now : ℤ)
    (cartId : String) : SalesforceContext × SalesforceCartClient :=
  let contextId := "sf_ctx_" ++ toString s.nextId
  let context : SalesforceContext :=
    { contextId := contextId, cartId := cartId,
      expiresAt := now + s.contextTTL, createdAt := now }
  (context,
   { s with contexts := setAssoc s.contexts contextId context,
            cartItems := setAssoc s.cartItems contextId [],
            nextId := s.nextId + 1 })

/-- `SalesforceCartClient.isContextValid`: the context exists and
`new Date() < context.expiresAt`. -/
def SalesforceCartClient.isContextValid (s : SalesforceCartClient) (now : ℤ)
    (contextId : String) : Bool :=
  match findAssoc s.contexts contextId with
  | none => false
  | some context => decide (now < context.expiresAt)

/-- `SalesforceCartClient.getCartItems`: throws `SF_CONTEXT_EXPIRED` on an
invalid context, otherwise returns the stored items (insertion order). -/
def SalesforceCartClient.getCartItems (s : SalesforceCartClient) (now : ℤ)
    (contextId : String) : Except CartError (List CartItem) :=
  if s.isContextValid now contextId = true then
    Except.ok ((findAssoc s.cartItems contextId).getD [])
  else Except.error CartError.sfContextExpired

/-- The JS object spread `{ id: itemId, ...itemRequest }` in the provider's
`addItem`. -/
def itemFromRequest (n : Nat) (req : AddItemRequest) : CartItem :=
  { id := "item_" ++ toString n, productId := req.productId,
    productName := req.productName, productType := req.productType,
    quantity := req.quantity, unitPrice := req.unitPrice,
    totalPrice := req.totalPrice }

/-- `SalesforceCartClient.addItem`: assigns a fresh item id and appends; stores
the pricing fields exactly as supplied by the caller. -/
def SalesforceCartClient.addItem (s : SalesforceCartClient) (now : ℤ)
    (contextId : String) (req : AddItemRequest) :
    Except CartError (CartItem × SalesforceCartClient) :=
  if s.isContextValid now contextId = true then
    let items := (findAssoc s.cartItems contextId).getD []
    let newItem : CartItem := itemFromRequest s.nextId req
    Except.ok (newItem,
      { s with cartItems := setAssoc s.cartItems contextId (items ++ [newItem]),
               nextId := s.nextId + 1 })
  else Except.error CartError.sfContextExpired

/-- `findIndex` followed by in-place replacement, as done by the provider's
`updateItem`: replaces the first item with the given id by a copy whose
quantity is the new one and whose `totalPrice` is `unitPrice * quantity`
(no rounding in the source). Returns the updated item and the new list. -/
def updateFirstItem (itemId : String) (quantity : ℚ) :
    List CartItem → Option (CartItem × List CartItem)
  | [] => none
  | item :: rest =>
    if item.id = itemId then
      let updated : CartItem :=
        { item with quantity := quantity, totalPrice := item.unitPrice * quantity }
      some (updated, updated :: rest)
    else
      match updateFirstItem itemId quantity rest with
      | none => none
      | some (u, rest2) => some (u, item :: rest2)

/-- `SalesforceCartClient.updateItem`: `SF_CONTEXT_EXPIRED` on invalid context,
`ITEM_NOT_FOUND` when `findIndex` misses, else replace and return the item. -/
def SalesforceCartClient.updateItem (s : SalesforceCartClient) (now : ℤ)
    (contextId itemId : String) (quantity : ℚ) :
    Except CartError (CartItem × SalesforceCartClient) :=
  if s.isContextValid now contextId = true then
    let items := (findAssoc s.cartItems contextId).getD []
    match updateFirstItem itemId quantity items with
    | none => Except.error CartError.itemNotFound
    | some (updatedItem, items2) =>
      Except.ok (updatedItem, { s with cartItems := setAssoc s.cartItems contextId items2 })
  else Except.error CartError.sfContextExpired

/-- `findIndex` followed by `splice(index, 1)`: removes the first item with the
given id, or `none` when `findIndex` returns `-1`. -/
def removeFirstItem (itemId : String) : List CartItem → Option (List CartItem)
  | [] => none
  | item :: rest =>
    if item.id = itemId then some rest
    else
      match removeFirstItem itemId rest with
      | none => none
      | some rest2 => some (item :: rest2)

/-- `SalesforceCartClient.removeItem`. -/
def SalesforceCartClient.removeItem (s : SalesforceCartClient) (now : ℤ)
    (contextId itemId : String) : Except CartError SalesforceCartClient :=
  if s.isContextValid now contextId = true then
    let items := (findAssoc s.cartItems contextId).getD []
    match removeFirstItem itemId items with
    | none => Except.error CartError.itemNotFound
    | some items2 => Except.ok { s with cartItems := setAssoc s.cartItems contextId items2 }
  else Except.error CartError.sfContextExpired

/-- Cart view object (src/types/cart.ts `Cart`). -/
structure Cart where
  id : String
  items : List CartItem
  subtotal : ℚ
  tax : ℚ
  total : ℚ
  createdAt : ℤ
  updatedAt : ℤ
deriving DecidableEq

/-- State of the orchestrator (src/services/cart.ts `CartService`): the
provider it wraps, the `contextCache` and `shadowState` maps, and a counter
modelling `nanoid` for cart ids. -/
structure CartService where
  sfClient : SalesforceCartClient
  contextCache : List (String × SalesforceContext)
  shadowState : List (String × List CartItem)
  nextCartId : Nat
deriving DecidableEq

/-- The in-memory product catalog of `CartService` (constant, never mutated). -/
def products : List (String × Product) :=
  [("phone_iphone15",
    { id := "phone_iphone15", name := "iPhone 15 Pro", type := "PHONE", price := 139999/100 }),
   ("phone_samsung_s24",
    { id := "phone_samsung_s24", name := "Samsung Galaxy S24", type := "PHONE", price := 119999/100 }),
   ("plan_unlimited",
    { id := "plan_unlimited", name := "Unlimited Plan", type := "PLAN", price := 85,
      requiresPhone := true }),
   ("plan_5gb",
    { id := "plan_5gb", name := "5GB Plan", type := "PLAN", price := 55, requiresPhone := true }),
   ("addon_insurance",
    { id := "addon_insurance", name := "Device Insurance", type := "ADDON", price := 12 }),
   ("addon_earbuds",
    { id := "addon_earbuds", name := "Wireless Earbuds", type := "ADDON", price := 19999/100 })]

/-- `CartService.buildCart`: the view with subtotal, tax and total each
computed (and independently rounded) from the item list. -/
def buildCart (now : ℤ) (cartId : String) (items : List CartItem) : Cart :=
  let subtotal := calculateSubtotal items
  let tax := calculateTax subtotal
  let total := calculateTotal subtotal tax
  { id := cartId, items := items, subtotal := subtotal, tax := tax, total := total,
    createdAt := now, updatedAt := now }

/-- The `AddItemRequest` literal built from a shadow item in the replay loop
of `ensureValidContext`. -/
def shadowRequest (item : CartItem) : AddItemRequest :=
  { productId := item.productId, productName := item.productName,
    productType := item.productType, quantity := item.quantity,
    unitPrice := item.unitPrice, totalPrice := item.totalPrice }

/-- The replay loop inside `ensureValidContext`: re-adds every shadow item to
the fresh context via the provider. Returns the provider state reached so far
together with the first error, if any (an exception aborts the loop but keeps
the mutations already made). -/
def replayItems (s : SalesforceCartClient) (now : ℤ) (contextId : String) :
    List CartItem → SalesforceCartClient × Option CartError
  | [] => (s, none)
  | item :: rest =>
    match s.addItem now contextId (shadowRequest item) with
    | Except.error e => (s, some e)
    | Except.ok (_, s2) => replayItems s2 now contextId rest

/-- `CartService.initializeCart`: fresh cart id, fresh provider context, empty
shadow store, empty cart view. -/
def CartService.initializeCart (st : CartService) (now : ℤ) : Cart × CartService :=
  let cartId := "cart_" ++ toString st.nextCartId
  let (context, sf2) := st.sfClient.createContext now cartId
  (buildCart now cartId [],
   { st with sfClient := sf2,
             contextCache := setAssoc st.contextCache cartId context,
             shadowState := setAssoc st.shadowState cartId [],
             nextCartId := st.nextCartId + 1 })

/-- `CartService.ensureValidContext`: `NotFoundError` when the cart has no
cached context; recovery (fresh context + replay of the shadow items, then
cache update) when `new Date() > context.expiresAt`; otherwise the cached
context id. The returned state keeps all mutations made before a replay
failure, as a thrown JS exception would. -/
def CartService.ensureValidContext (st : CartService) (now : ℤ) (cartId : String) :
    CartService × Except CartError String :=
  match findAssoc st.contextCache cartId with
  | none => (st, Except.error (CartError.notFound "Cart" cartId))
  | some context =>
    if context.expiresAt < now then
      let shadowItems := (findAssoc st.shadowState cartId).getD []
      let (newContext, sf2) := st.sfClient.createContext now cartId
      match replayItems sf2 now newContext.contextId shadowItems with
      | (sf3, some e) => ({ st with sfClient := sf3 }, Except.error e)
      | (sf3, none) =>
        ({ st with sfClient := sf3,
                   contextCache := setAssoc st.contextCache cartId newContext },
         Except.ok newContext.contextId)
    else (st, Except.ok context.contextId)

/-- `CartService.getCart`: resolve a valid context, read the live items,
overwrite the shadow store with them, build the view. -/
def CartService.getCart (st : CartService) (now : ℤ) (cartId : String) :
    CartService × Except CartError Cart :=
  match st.ensureValidContext now cartId with
  | (st1, Except.error e) => (st1, Except.error e)
  | (st1, Except.ok contextId) =>
    match st1.sfClient.getCartItems now contextId with
    | Except.error e => (st1, Except.error e)
    | Except.ok items =>
      ({ st1 with shadowState := setAssoc st1.shadowState cartId items },
       Except.ok (buildCart now cartId items))

/-- `CartService.addItem`: catalog lookup, context resolution, `canAddItemType`
check against the live items, provider add, shadow append, rebuilt view. -/
def CartService.addItem (st : CartService) (now : ℤ) (cartId productId : String)
    (quantity : ℚ) : CartService × Except CartError Cart :=
  match findAssoc products productId with
  | none => (st, Except.error (CartError.notFound "Product" productId))
  | some product =>
    match st.ensureValidContext now cartId with
    | (st1, Except.error e) => (st1, Except.error e)
    | (st1, Except.ok contextId) =>
      match st1.sfClient.getCartItems now contextId with
      | Except.error e => (st1, Except.error e)
      | Except.ok currentItems =>
        let canAdd := canAddItemType currentItems product.type
        if canAdd.allowed then
          match st1.sfClient.addItem now contextId
              { productId := product.id, productName := product.name,
                productType := product.type, quantity := quantity,
                unitPrice := product.price,
                totalPrice := calculateItemTotal product.price quantity } with
          | Except.error e => (st1, Except.error e)
          | Except.ok (newItem, sf2) =>
            let shadowItems := (findAssoc st1.shadowState cartId).getD [] ++ [newItem]
            ({ st1 with sfClient := sf2,
                        shadowState := setAssoc st1.shadowState cartId shadowItems },
             Except.ok (buildCart now cartId shadowItems))
        else (st1, Except.error (CartError.businessRule (canAdd.reason.getD "")))

/-- `findIndex` followed by `shadowItems[index] = updatedItem` in the
orchestrator's `updateItem`: replaces the first item with the given id by the
supplied item, or `none` when `findIndex` returns `-1`. -/
def replaceFirstItem (itemId : String) (newItem : CartItem) :
    List CartItem → Option (List CartItem)
  | [] => none
  | item :: rest =>
    if item.id = itemId then some (newItem :: rest)
    else
      match replaceFirstItem itemId newItem rest with
      | none => none
      | some rest2 => some (item :: rest2)

/-- `CartService.updateItem`: provider update (which recomputes the total
price), then patch of the matching shadow entry (left untouched when the id is
not in the shadow store), rebuilt view. -/
def CartService.updateItem (st : CartService) (now : ℤ) (cartId itemId : String)
    (quantity : ℚ) : CartService × Except CartError Cart :=
  match st.ensureValidContext now cartId with
  | (st1, Except.error e) => (st1, Except.error e)
  | (st1, Except.ok contextId) =>
    match st1.sfClient.updateItem now contextId itemId quantity with
    | Except.error e => (st1, Except.error e)
    | Except.ok (updatedItem, sf2) =>
      let shadowItems := (findAssoc st1.shadowState cartId).getD []
      match replaceFirstItem itemId updatedItem shadowItems with
      | some shadowItems2 =>
        ({ st1 with sfClient := sf2,
                    shadowState := setAssoc st1.shadowState cartId shadowItems2 },
         Except.ok (buildCart now cartId shadowItems2))
      | none => ({ st1 with sfClient := sf2 }, Except.ok (buildCart now cartId shadowItems))

/-- `CartService.removeItem`: provider removal, then removal of the matching
shadow entry (a no-op when the id is not in the shadow store), rebuilt view. -/
def CartService.removeItem (st : CartService) (now : ℤ) (cartId itemId : String) :
    CartService × Except CartError Cart :=
  match st.ensureValidContext now cartId with
  | (st1, Except.error e) => (st1, Except.error e)
  | (st1, Except.ok contextId) =>
    match st1.sfClient.removeItem now contextId itemId with
    | Except.error e => (st1, Except.error e)
    | Except.ok sf2 =>
      let shadowItems := (findAssoc st1.shadowState cartId).getD []
      match removeFirstItem itemId shadowItems with
      | some shadowItems2 =>
        ({ st1 with sfClient := sf2,
                    shadowState := setAssoc st1.shadowState cartId shadowItems2 },
         Except.ok (buildCart now cartId shadowItems2))
      | none => ({ st1 with sfClient := sf2 }, Except.ok (buildCart now cartId shadowItems))

/-- `CartService.validateCart`: resolve a context, read the live items, apply
`validateCartRules`. No write besides what `ensureValidContext` itself does. -/
def CartService.validateCart (st : CartService) (now : ℤ) (cartId : String) :
    CartService × Except CartError ValidationResult :=
  match st.ensureValidContext now cartId with
  | (st1, Except.error e) => (st1, Except.error e)
  | (st1, Except.ok contextId) =>
    match st1.sfClient.getCartItems now contextId with
    | Except.error e => (st1, Except.error e)
    | Except.ok items => (st1, Except.ok (validateCartRules items))

deriving instance DecidableEq for Except

/-- The observable content of a line item apart from its identifier: product
id, quantity, unit price and line total. -/
def lineKey (item : CartItem) : String × ℚ × ℚ × ℚ :=
  (item.productId, item.quantity, item.unitPrice, item.totalPrice)

/-- Number of `PHONE` items, as computed by the rule functions. -/
def phoneCount (items : List CartItem) : Nat :=
  (items.filter (fun item => item.productType == "PHONE")).length

/-- Number of `PLAN` items, as computed by the rule functions. -/
def planCount (items : List CartItem) : Nat :=
  (items.filter (fun item => item.productType == "PLAN")).length

/-- Whether some item has a non-positive or non-integer quantity. -/
def hasInvalidQuantity (items : List CartItem) : Bool :=
  items.any (fun item => decide (item.quantity ≤ 0) || !(isIntegerQty item.quantity))

/-! Concrete states used by witnesses and counterexamples. -/

/-- A context created at time 0 with the default 5-minute TTL. -/
def ctxA : SalesforceContext :=
  { contextId := "sf_ctx_0", cartId := "cart_0", expiresAt := 300000, createdAt := 0 }

/-- The same context after `expireContext` forced its expiry into the past. -/
def ctxExp : SalesforceContext :=
  { contextId := "sf_ctx_0", cartId := "cart_0", expiresAt := -1000, createdAt := 0 }

/-- One iPhone line item as stored after `addItem(cartId, "phone_iphone15", 1)`. -/
def phoneItemA : CartItem :=
  { id := "item_0", productId := "phone_iphone15", productName := "iPhone 15 Pro",
    productType := "PHONE", quantity := 1, unitPrice := 139999/100, totalPrice := 139999/100 }

/-- A plan line item as stored after `addItem(cartId, "plan_unlimited", 1)`. -/
def planItemA : CartItem :=
  { id := "item_0", productId := "plan_unlimited", productName := "Unlimited Plan",
    productType := "PLAN", quantity := 1, unitPrice := 85, totalPrice := 85 }

/-- An insurance add-on line item with a distinguishing id suffix. -/
def addonItem (n : Nat) : CartItem :=
  { id := "item_a" ++ toString n, productId := "addon_insurance",
    productName := "Device Insurance", productType := "ADDON", quantity := 1,
    unitPrice := 12, totalPrice := 12 }

/-- An initialized service holding one cart `cart_0` with one phone item, a
live unexpired context `sf_ctx_0`, and shadow and live stores in sync. -/
def stA : CartService :=
  { sfClient := { contexts := [("sf_ctx_0", ctxA)], cartItems := [("sf_ctx_0", [phoneItemA])],
                  contextTTL := 300000, nextId := 1 },
    contextCache := [("cart_0", ctxA)], shadowState := [("cart_0", [phoneItemA])],
    nextCartId := 1 }

/-- The same cart after its context was forced to expire. -/
def stAExp : CartService :=
  { sfClient := { contexts := [("sf_ctx_0", ctxExp)], cartItems := [("sf_ctx_0", [phoneItemA])],
                  contextTTL := 300000, nextId := 1 },
    contextCache := [("cart_0", ctxExp)], shadowState := [("cart_0", [phoneItemA])],
    nextCartId := 1 }

/-- Fifty items — one phone and forty-nine add-ons — the configured maximum. -/
def fullItems : List CartItem := phoneItemA :: (List.range 49).map addonItem

/-- A cart already at the 50-item maximum, phone included, context valid. -/
def stFull : CartService :=
  { sfClient := { contexts := [("sf_ctx_0", ctxA)], cartItems := [("sf_ctx_0", fullItems)],
                  contextTTL := 300000, nextId := 1 },
    contextCache := [("cart_0", ctxA)], shadowState := [("cart_0", fullItems)],
    nextCartId := 1 }

/-- A cart holding exactly one plan item (85.00, quantity 1) and no phone. -/
def stPlan : CartService :=
  { sfClient := { contexts := [("sf_ctx_0", ctxA)], cartItems := [("sf_ctx_0", [planItemA])],
                  contextTTL := 300000, nextId := 1 },
    contextCache := [("cart_0", ctxA)], shadowState := [("cart_0", [planItemA])],
    nextCartId := 1 }

/-- The empty service state at process start. -/
def st0 : CartService :=
  { sfClient := { contexts := [], cartItems := [], contextTTL := 300000, nextId := 0 },
    contextCache := [], shadowState := [], nextCartId := 0 }

/-- The iPhone item after `updateItem` set its quantity to 1/2: the stored
total is the unrounded product 699.995. -/
def halfPhoneItem : CartItem :=
  { phoneItemA with quantity := 1/2, totalPrice := 139999/200 }

/-- The iPhone item after the provider recomputed its total for quantity 1/4:
the stored total is the unrounded product 349.9975. -/
def quarterPhoneItem : CartItem :=
  { phoneItemA with quantity := 1/4, totalPrice := 139999/400 }

/-- The iPhone item as the provider re-adds it during recovery in `stAExp`:
same line data, fresh identifier. -/
def refreshedPhoneItem : CartItem := { phoneItemA with id := "item_2" }

/-- The insurance item added to `stAExp` right after that recovery. -/
def addonAfterRecovery : CartItem :=
  { id := "item_3", productId := "addon_insurance", productName := "Device Insurance",
    productType := "ADDON", quantity := 1, unitPrice := 12, totalPrice := 12 }

/-- The insurance item as added to the live cart of `stA` (no recovery). -/
def newAddonA : CartItem :=
  { id := "item_1", productId := "addon_insurance", productName := "Device Insurance",
    productType := "ADDON", quantity := 1, unitPrice := 12, totalPrice := 12 }

/-- An item list violating four rules at once: 51 items, two plans, no phone,
one non-positive quantity. -/
def multiViolationItems : List CartItem :=
  planItemA :: { planItemA with id := "item_p2", productId := "plan_5gb" } ::
    { addonItem 100 with quantity := 0, totalPrice := 0 } :: (List.range 48).map addonItem

/-- The service state after `initializeCart` on an empty service at time 0. -/
def scenarioStep1 : CartService := (CartService.initializeCart st0 0).2

/-- ... then `addItem(cart_0, phone_iphone15, 1)`. -/
def scenarioStep2 : CartService :=
  (CartService.addItem scenarioStep1 0 "cart_0" "phone_iphone15" 1).1

/-- ... then the result of `addItem(cart_0, addon_insurance, 1)`. -/
def scenarioResult : Except CartError Cart :=
  (CartService.addItem scenarioStep2 0 "cart_0" "addon_insurance" 1).2

/-- The iPhone item after the provider recomputed its total for quantity 3. -/
def item3A : CartItem := { phoneItemA with quantity := 3, totalPrice := 419997/100 }

/-- The provider state of `stA` after that update. -/
def sfAfterUpdate3 : SalesforceCartClient :=
  { stA.sfClient with cartItems := [("sf_ctx_0", [item3A])] }

/-!
The arithmetic operations on `Rat` are `@[irreducible]` in the library, which
blocks kernel evaluation of concrete states inside `decide`; we restore the
default reducibility for this development so that concrete runs of the model
evaluate. -/

attribute [local semireducible] Rat.mul Rat.add Rat.sub Rat.inv Rat.ofScientific

/-! Basic lemmas about the Map model. -/

theorem findAssoc_setAssoc_self {α : Type} (m : List (String × α)) (k : String) (v : α) :
    findAssoc (setAssoc m k v) k = some v := by
  induction m with
  | nil => simp [findAssoc, setAssoc]
  | cons p rest ih =>
    obtain ⟨k1, v1⟩ := p
    by_cases h : k1 = k
    · simp [findAssoc, setAssoc, h]
    · simp [findAssoc, setAssoc, h, ih]

theorem findAssoc_setAssoc_ne {α : Type} (m : List (String × α)) (k k2 : String) (v : α)
    (h : k2 ≠ k) : findAssoc (setAssoc m k v) k2 = findAssoc m k2 := by
  have hk : ¬ k = k2 := fun h2 => h h2.symm
  induction m with
  | nil => simp [findAssoc, setAssoc, hk]
  | cons p rest ih =>
    obtain ⟨k1, v1⟩ := p
    by_cases h1 : k1 = k
    · subst h1
      simp [findAssoc, setAssoc, hk]
    · simp only [setAssoc, if_neg h1, findAssoc, ih]

/-- Validity of a context depends on the contexts map only. -/
theorem isContextValid_congr (s1 s2 : SalesforceCartClient) (now : ℤ) (contextId : String)
    (h : s1.contexts = s2.contexts) :
    s1.isContextValid now contextId = s2.isContextValid now contextId := by
  unfold SalesforceCartClient.isContextValid
  rw [h]

theorem isContextValid_true (s : SalesforceCartClient) (now : ℤ)
    (context : SalesforceContext)
    (h : findAssoc s.contexts context.contextId = some context)
    (hlt : now < context.expiresAt) :
    s.isContextValid now context.contextId = true := by
  unfold SalesforceCartClient.isContextValid
  rw [h]
  simpa using hlt

/-- `round2` is the identity on integer multiples of 1/100. -/
theorem round2_int_div (m : ℤ) : round2 ((m : ℚ) / 100) = (m : ℚ) / 100 := by
  unfold round2
  have h1 : ((m : ℚ) / 100) * 100 = (m : ℚ) := by
    field_simp
  rw [h1, Int.floor_int_add]
  have h2 : ⌊(1 / 2 : ℚ)⌋ = 0 := by
    rw [Int.floor_eq_zero_iff]
    constructor <;> norm_num
  rw [h2]
  norm_num

/-! Shapes of the provider operations on a valid context. -/

theorem getCartItems_valid (s : SalesforceCartClient) (now : ℤ) (contextId : String)
    (hvalid : s.isContextValid now contextId = true) :
    s.getCartItems now contextId = Except.ok ((findAssoc s.cartItems contextId).getD []) := by
  unfold SalesforceCartClient.getCartItems
  rw [if_pos hvalid]

theorem getCartItems_invalid (s : SalesforceCartClient) (now : ℤ) (contextId : String)
    (hvalid : ¬ s.isContextValid now contextId = true) :
    s.getCartItems now contextId = Except.error CartError.sfContextExpired := by
  unfold SalesforceCartClient.getCartItems
  rw [if_neg hvalid]

theorem addItem_valid (s : SalesforceCartClient) (now : ℤ) (contextId : String)
    (req : AddItemRequest) (hvalid : s.isContextValid now contextId = true) :
    s.addItem now contextId req =
      Except.ok (itemFromRequest s.nextId req,
        { s with cartItems := setAssoc s.cartItems contextId
                   (((findAssoc s.cartItems contextId).getD []) ++ [itemFromRequest s.nextId req]),
                 nextId := s.nextId + 1 }) := by
  unfold SalesforceCartClient.addItem
  rw [if_pos hvalid]

theorem updateItem_valid (s : SalesforceCartClient) (now : ℤ) (contextId itemId : String)
    (quantity : ℚ) (hvalid : s.isContextValid now contextId = true) :
    s.updateItem now contextId itemId quantity =
      match updateFirstItem itemId quantity ((findAssoc s.cartItems contextId).getD []) with
      | none => Except.error CartError.itemNotFound
      | some (updatedItem, items2) =>
        Except.ok (updatedItem,
          { s with cartItems := setAssoc s.cartItems contextId items2 }) := by
  unfold SalesforceCartClient.updateItem
  rw [if_pos hvalid]

theorem removeItem_valid (s : SalesforceCartClient) (now : ℤ) (contextId itemId : String)
    (hvalid : s.isContextValid now contextId = true) :
    s.removeItem now contextId itemId =
      match removeFirstItem itemId ((findAssoc s.cartItems contextId).getD []) with
      | none => Except.error CartError.itemNotFound
      | some items2 =>
        Except.ok { s with cartItems := setAssoc s.cartItems contextId items2 } := by
  unfold SalesforceCartClient.removeItem
  rw [if_pos hvalid]

theorem updateItem_invalid (s : SalesforceCartClient) (now : ℤ) (contextId itemId : String)
    (quantity : ℚ) (hvalid : ¬ s.isContextValid now contextId = true) :
    s.updateItem now contextId itemId quantity = Except.error CartError.sfContextExpired := by
  unfold SalesforceCartClient.updateItem
  rw [if_neg hvalid]

theorem removeItem_invalid (s : SalesforceCartClient) (now : ℤ) (contextId itemId : String)
    (hvalid : ¬ s.isContextValid now contextId = true) :
    s.removeItem now contextId itemId = Except.error CartError.sfContextExpired := by
  unfold SalesforceCartClient.removeItem
  rw [if_neg hvalid]

/-- Replaying a list of shadow items into a valid context succeeds, leaves the
contexts map untouched, and appends items with the same line data (fresh ids)
to that context's store, in order. -/
theorem replayItems_ok (now : ℤ) (contextId : String) :
    ∀ (items : List CartItem) (s : SalesforceCartClient) (pre : List CartItem),
      s.isContextValid now contextId = true →
      (findAssoc s.cartItems contextId).getD [] = pre →
      ∃ s2 refreshed,
        replayItems s now contextId items = (s2, none) ∧
        s2.contexts = s.contexts ∧
        (findAssoc s2.cartItems contextId).getD [] = pre ++ refreshed ∧
        refreshed.map lineKey = items.map lineKey := by
  intro items
  induction items with
  | nil =>
    intro s pre hvalid hpre
    exact ⟨s, [], rfl, rfl, by simpa using hpre, rfl⟩
  | cons item rest ih =>
    intro s pre hvalid hpre
    have hstep : replayItems s now contextId (item :: rest) =
        replayItems
          { s with cartItems := setAssoc s.cartItems contextId
                     (pre ++ [itemFromRequest s.nextId (shadowRequest item)]),
                   nextId := s.nextId + 1 } now contextId rest := by
      simp only [replayItems]
      rw [addItem_valid s now contextId _ hvalid, hpre]
    have hvalid2 :
        SalesforceCartClient.isContextValid
          { s with cartItems := setAssoc s.cartItems contextId
                     (pre ++ [itemFromRequest s.nextId (shadowRequest item)]),
                   nextId := s.nextId + 1 } now contextId = true := hvalid
    have hpre2 :
        (findAssoc
          (SalesforceCartClient.cartItems
            { s with cartItems := setAssoc s.cartItems contextId
                       (pre ++ [itemFromRequest s.nextId (shadowRequest item)]),
                     nextId := s.nextId + 1 }) contextId).getD [] =
          pre ++ [itemFromRequest s.nextId (shadowRequest item)] := by
      rw [show SalesforceCartClient.cartItems
            { s with cartItems := setAssoc s.cartItems contextId
                       (pre ++ [itemFromRequest s.nextId (shadowRequest item)]),
                     nextId := s.nextId + 1 } =
            setAssoc s.cartItems contextId
              (pre ++ [itemFromRequest s.nextId (shadowRequest item)]) from rfl]
      rw [findAssoc_setAssoc_self]
      rfl
    obtain ⟨s2, refreshed, hrun, hctxs, hstore, hkeys⟩ := ih _ _ hvalid2 hpre2
    refine ⟨s2, itemFromRequest s.nextId (shadowRequest item) :: refreshed, ?_, ?_, ?_, ?_⟩
    · rw [hstep, hrun]
    · rw [hctxs]
    · rw [hstore, List.append_assoc]
      rfl
    · simp only [List.map_cons, hkeys]
      rfl

/-! Shapes of `ensureValidContext`. -/

/-- With a cached, unexpired context, `ensureValidContext` changes nothing and
returns the cached context id. -/
theorem ensureValidContext_live (st : CartService) (now : ℤ) (cartId : String)
    (context : SalesforceContext)
    (hctx : findAssoc st.contextCache cartId = some context)
    (hnotexp : ¬ context.expiresAt < now) :
    st.ensureValidContext now cartId = (st, Except.ok context.contextId) := by
  simp only [CartService.ensureValidContext, hctx]
  rw [if_neg hnotexp]

/-- With a cached expired context and a positive TTL, `ensureValidContext`
recovers: it returns the id of a fresh context that is valid now, whose store
holds replacements of the shadow items (same line data, same order), and it
rewrites the context cache; the shadow store itself is untouched. -/
theorem ensureValidContext_expired (st : CartService) (now : ℤ) (cartId : String)
    (context : SalesforceContext)
    (hctx : findAssoc st.contextCache cartId = some context)
    (hexp : context.expiresAt < now)
    (httl : 0 < st.sfClient.contextTTL) :
    ∃ sf3 newContext refreshed,
      st.ensureValidContext now cartId =
        ({ st with sfClient := sf3,
                   contextCache := setAssoc st.contextCache cartId newContext },
         Except.ok newContext.contextId) ∧
      sf3.isContextValid now newContext.contextId = true ∧
      (findAssoc sf3.cartItems newContext.contextId).getD [] = refreshed ∧
      refreshed.map lineKey = ((findAssoc st.shadowState cartId).getD []).map lineKey := by
  have hvalid2 :
      SalesforceCartClient.isContextValid
        { st.sfClient with
            contexts := setAssoc st.sfClient.contexts ("sf_ctx_" ++ toString st.sfClient.nextId)
              { contextId := "sf_ctx_" ++ toString st.sfClient.nextId, cartId := cartId,
                expiresAt := now + st.sfClient.contextTTL, createdAt := now },
            cartItems := setAssoc st.sfClient.cartItems ("sf_ctx_" ++ toString st.sfClient.nextId) [],
            nextId := st.sfClient.nextId + 1 }
        now ("sf_ctx_" ++ toString st.sfClient.nextId) = true := by
    unfold SalesforceCartClient.isContextValid
    rw [show SalesforceCartClient.contexts
        { st.sfClient with
            contexts := setAssoc st.sfClient.contexts ("sf_ctx_" ++ toString st.sfClient.nextId)
              { contextId := "sf_ctx_" ++ toString st.sfClient.nextId, cartId := cartId,
                expiresAt := now + st.sfClient.contextTTL, createdAt := now },
            cartItems := setAssoc st.sfClient.cartItems ("sf_ctx_" ++ toString st.sfClient.nextId) [],
            nextId := st.sfClient.nextId + 1 } =
        setAssoc st.sfClient.contexts ("sf_ctx_" ++ toString st.sfClient.nextId)
          { contextId := "sf_ctx_" ++ toString st.sfClient.nextId, cartId := cartId,
            expiresAt := now + st.sfClient.contextTTL, createdAt := now } from rfl]
    rw [findAssoc_setAssoc_self]
    simpa using lt_add_of_pos_right now httl
  have hpre2 :
      (findAssoc
        (SalesforceCartClient.cartItems
          { st.sfClient with
              contexts := setAssoc st.sfClient.contexts ("sf_ctx_" ++ toString st.sfClient.nextId)
                { contextId := "sf_ctx_" ++ toString st.sfClient.nextId, cartId := cartId,
                  expiresAt := now + st.sfClient.contextTTL, createdAt := now },
              cartItems := setAssoc st.sfClient.cartItems ("sf_ctx_" ++ toString st.sfClient.nextId) [],
              nextId := st.sfClient.nextId + 1 })
        ("sf_ctx_" ++ toString st.sfClient.nextId)).getD [] = ([] : List CartItem) := by
    rw [show SalesforceCartClient.cartItems
        { st.sfClient with
            contexts := setAssoc st.sfClient.contexts ("sf_ctx_" ++ toString st.sfClient.nextId)
              { contextId := "sf_ctx_" ++ toString st.sfClient.nextId, cartId := cartId,
                expiresAt := now + st.sfClient.contextTTL, createdAt := now },
            cartItems := setAssoc st.sfClient.cartItems ("sf_ctx_" ++ toString st.sfClient.nextId) [],
            nextId := st.sfClient.nextId + 1 } =
        setAssoc st.sfClient.cartItems ("sf_ctx_" ++ toString st.sfClient.nextId) [] from rfl]
    rw [findAssoc_setAssoc_self]
    rfl
  obtain ⟨s2, refreshed, hrun, hctxs, hstore, hkeys⟩ :=
    replayItems_ok now ("sf_ctx_" ++ toString st.sfClient.nextId)
      ((findAssoc st.shadowState cartId).getD [])
      { st.sfClient with
          contexts := setAssoc st.sfClient.contexts ("sf_ctx_" ++ toString st.sfClient.nextId)
            { contextId := "sf_ctx_" ++ toString st.sfClient.nextId, cartId := cartId,
              expiresAt := now + st.sfClient.contextTTL, createdAt := now },
          cartItems := setAssoc st.sfClient.cartItems ("sf_ctx_" ++ toString st.sfClient.nextId) [],
          nextId := st.sfClient.nextId + 1 }
      [] hvalid2 hpre2
  refine ⟨s2,
    { contextId := "sf_ctx_" ++ toString st.sfClient.nextId, cartId := cartId,
      expiresAt := now + st.sfClient.contextTTL, createdAt := now }, refreshed, ?_, ?_, ?_, hkeys⟩
  · simp only [CartService.ensureValidContext, hctx]
    rw [if_pos hexp]
    simp only [SalesforceCartClient.createContext]
    rw [hrun]
  · unfold SalesforceCartClient.isContextValid
    rw [hctxs]
    rw [findAssoc_setAssoc_self]
    simpa using lt_add_of_pos_right now httl
  · simpa using hstore

/-- Claim C1: for an initialized cart whose cached context has expired
(expiry strictly in the past, with a positive configured TTL), the next
`getCart` succeeds by recovering, and the returned cart view holds exactly the
items the shadow store held before the call — compared by product id,
quantity, unit price and line total, in the original insertion order — while
the item identifiers in the view are free to differ. -/
theorem getCart_after_expiry_restores_shadow (st : CartService) (now : ℤ)
    (cartId : String) (context : SalesforceContext)
    (hctx : findAssoc st.contextCache cartId = some context)
    (hexp : context.expiresAt < now)
    (httl : 0 < st.sfClient.contextTTL) :
    ∃ st2 cart, st.getCart now cartId = (st2, Except.ok cart) ∧
      cart.items.map lineKey = ((findAssoc st.shadowState cartId).getD []).map lineKey := by
  obtain ⟨sf3, newContext, refreshed, hensure, hvalid, hstore, hkeys⟩ :=
    ensureValidContext_expired st now cartId context hctx hexp httl
  refine ⟨{ sfClient := sf3, contextCache := setAssoc st.contextCache cartId newContext,
            shadowState := setAssoc st.shadowState cartId refreshed,
            nextCartId := st.nextCartId }, buildCart now cartId refreshed, ?_, ?_⟩
  · simp only [CartService.getCart, hensure]
    rw [getCartItems_valid _ now _ hvalid, hstore]
  · rw [show (buildCart now cartId refreshed).items = refreshed from rfl]
    exact hkeys

/-- Witness for C1 at the concrete expired state `stAExp`. -/
theorem getCart_after_expiry_restores_shadow_witness :
    (findAssoc stAExp.contextCache "cart_0" = some ctxExp ∧
     ctxExp.expiresAt < 1000 ∧ 0 < stAExp.sfClient.contextTTL) ∧
    (∃ st2 cart, stAExp.getCart 1000 "cart_0" = (st2, Except.ok cart) ∧
      cart.items.map lineKey = ((findAssoc stAExp.shadowState "cart_0").getD []).map lineKey) :=
  ⟨by refine ⟨by decide, by decide, by decide⟩,
   getCart_after_expiry_restores_shadow stAExp 1000 "cart_0" ctxExp
     (by decide) (by decide) (by decide)⟩

/-- Away from the exact expiry instant, `ensureValidContext` on a cached,
provider-known context always succeeds and hands back a context that the
provider considers valid at the same instant. -/
theorem ensureValidContext_ok (st : CartService) (now : ℤ) (cartId : String)
    (context : SalesforceContext)
    (hctx : findAssoc st.contextCache cartId = some context)
    (hsync : findAssoc st.sfClient.contexts context.contextId = some context)
    (hne : now ≠ context.expiresAt)
    (httl : 0 < st.sfClient.contextTTL) :
    ∃ st1 contextId2, st.ensureValidContext now cartId = (st1, Except.ok contextId2) ∧
      st1.sfClient.isContextValid now contextId2 = true := by
  rcases lt_trichotomy now context.expiresAt with hlt | heq | hgt
  · exact ⟨st, context.contextId,
      ensureValidContext_live st now cartId context hctx (not_lt.mpr (le_of_lt hlt)),
      isContextValid_true _ now context hsync hlt⟩
  · exact absurd heq hne
  · obtain ⟨sf3, newContext, refreshed, hensure, hvalid, _, _⟩ :=
      ensureValidContext_expired st now cartId context hctx hgt httl
    exact ⟨_, newContext.contextId, hensure, hvalid⟩

/-- Claim C2 (amended): for every orchestrator operation on an initialized
cart — `getCart`, `addItem` with a known product, `updateItem`, `removeItem`,
`validateCart` — and every current time other than the exact millisecond at
which the cached context expires, the provider's ContextExpired signal is never
propagated to the caller: the operation either succeeds or fails with
NotFound, ItemNotFound or a business-rule error. (At `now = expiresAt` exactly
the orchestrator does not recover while the provider already rejects, and the
signal leaks — see the counterexample.) -/
theorem orchestrator_absorbs_context_expired (st : CartService) (now : ℤ)
    (cartId : String) (context : SalesforceContext)
    (hctx : findAssoc st.contextCache cartId = some context)
    (hsync : findAssoc st.sfClient.contexts context.contextId = some context)
    (hne : now ≠ context.expiresAt)
    (httl : 0 < st.sfClient.contextTTL) :
    (st.getCart now cartId).2 ≠ Except.error CartError.sfContextExpired ∧
    (∀ productId product quantity, findAssoc products productId = some product →
      (st.addItem now cartId productId quantity).2 ≠ Except.error CartError.sfContextExpired) ∧
    (∀ itemId quantity,
      (st.updateItem now cartId itemId quantity).2 ≠ Except.error CartError.sfContextExpired) ∧
    (∀ itemId, (st.removeItem now cartId itemId).2 ≠ Except.error CartError.sfContextExpired) ∧
    (st.validateCart now cartId).2 ≠ Except.error CartError.sfContextExpired := by
  obtain ⟨st1, cid, hensure, hvalid⟩ :=
    ensureValidContext_ok st now cartId context hctx hsync hne httl
  refine ⟨?_, ?_, ?_, ?_, ?_⟩
  · simp only [CartService.getCart, hensure, getCartItems_valid _ _ _ hvalid]
    simp
  · intro productId product quantity hprod
    simp only [CartService.addItem, hprod, hensure, getCartItems_valid _ _ _ hvalid]
    by_cases hca :
      (canAddItemType ((findAssoc st1.sfClient.cartItems cid).getD []) product.type).allowed = true
    · rw [if_pos hca, addItem_valid _ _ _ _ hvalid]
      simp
    · rw [if_neg hca]
      simp
  · intro itemId quantity
    simp only [CartService.updateItem, hensure, updateItem_valid _ _ _ _ _ hvalid]
    rcases hupd : updateFirstItem itemId quantity ((findAssoc st1.sfClient.cartItems cid).getD [])
      with _ | ⟨u, l2⟩
    · simp [hupd]
    · simp only [hupd]
      rcases hrep : replaceFirstItem itemId u ((findAssoc st1.shadowState cartId).getD [])
        with _ | l3
      · simp [hrep]
      · simp [hrep]
  · intro itemId
    simp only [CartService.removeItem, hensure, removeItem_valid _ _ _ _ hvalid]
    rcases hrem : removeFirstItem itemId ((findAssoc st1.sfClient.cartItems cid).getD [])
      with _ | l2
    · simp [hrem]
    · simp only [hrem]
      rcases hrem2 : removeFirstItem itemId ((findAssoc st1.shadowState cartId).getD [])
        with _ | l3
      · simp [hrem2]
      · simp [hrem2]
  · simp only [CartService.validateCart, hensure, getCartItems_valid _ _ _ hvalid]
    simp

/-- Counterexample to C2 as frozen: at the instant `now = expiresAt` exactly
(cart initialized, context cached and known to the provider), the orchestrator
skips recovery (`new Date() > expiresAt` is false) while the provider already
rejects (`new Date() < expiresAt` is false), so `getCart` propagates the raw
ContextExpired error to the caller. -/
theorem getCart_leaks_context_expired_at_boundary :
    (stA.getCart 300000 "cart_0").2 = Except.error CartError.sfContextExpired := by decide

theorem orchestrator_absorbs_context_expired_witness :
    (findAssoc stA.contextCache "cart_0" = some ctxA ∧
     findAssoc stA.sfClient.contexts "sf_ctx_0" = some ctxA ∧
     (1000 : ℤ) ≠ ctxA.expiresAt ∧ 0 < stA.sfClient.contextTTL) ∧
    (stA.getCart 1000 "cart_0").2 ≠ Except.error CartError.sfContextExpired ∧
    (stA.addItem 1000 "cart_0" "phone_samsung_s24" 1).2 ≠
      Except.error CartError.sfContextExpired ∧
    (stA.updateItem 1000 "cart_0" "item_0" 2).2 ≠ Except.error CartError.sfContextExpired ∧
    (stA.removeItem 1000 "cart_0" "item_0").2 ≠ Except.error CartError.sfContextExpired ∧
    (stA.validateCart 1000 "cart_0").2 ≠ Except.error CartError.sfContextExpired := by
  have h := orchestrator_absorbs_context_expired stA 1000 "cart_0" ctxA
    (by decide) (by decide) (by decide) (by decide)
  exact ⟨⟨by decide, by decide, by decide, by decide⟩, h.1,
    h.2.1 "phone_samsung_s24"
      ⟨"phone_samsung_s24", "Samsung Galaxy S24", "PHONE", 119999/100, false⟩ 1 (by decide),
    h.2.2.1 "item_0" 2, h.2.2.2.1 "item_0", h.2.2.2.2⟩

/-- `validateCart` returns exactly the state that `ensureValidContext`
produced: the read and rule evaluation write nothing. -/
theorem validateCart_state (st : CartService) (now : ℤ) (cartId : String) :
    (st.validateCart now cartId).1 = (st.ensureValidContext now cartId).1 := by
  rcases he : st.ensureValidContext now cartId with ⟨st1, e | cid⟩
  · simp [CartService.validateCart, he]
  · simp only [CartService.validateCart, he]
    rcases hg : st1.sfClient.getCartItems now cid with e | items <;> simp [hg]

/-- `ensureValidContext` never writes the shadow store, in any branch. -/
theorem ensureValidContext_shadow (st : CartService) (now : ℤ) (cartId : String) :
    (st.ensureValidContext now cartId).1.shadowState = st.shadowState := by
  simp only [CartService.ensureValidContext]
  split
  · rfl
  · split
    · simp only [SalesforceCartClient.createContext]
      split <;> rfl
    · rfl

/-- Claim C9 (amended): when the cached context has not expired at call time,
`validateCart` mutates nothing at all — the returned state is the input state,
for every cart and context. When the context has expired, the recovery inside
`ensureValidContext` does rewrite the context cache and the provider state
(see the counterexample); even then the shadow store is never written, which
the unconditional second part records. -/
theorem validateCart_pure_without_recovery (st : CartService) (now : ℤ)
    (cartId : String) (context : SalesforceContext)
    (hctx : findAssoc st.contextCache cartId = some context)
    (hnotexp : ¬ context.expiresAt < now) :
    (st.validateCart now cartId).1 = st ∧
    ∀ (st2 : CartService) (now2 : ℤ) (cartId2 : String),
      (st2.validateCart now2 cartId2).1.shadowState = st2.shadowState := by
  constructor
  · rw [validateCart_state, ensureValidContext_live st now cartId context hctx hnotexp]
  · intro st2 now2 cartId2
    rw [validateCart_state, ensureValidContext_shadow]

/-- Counterexample to C9 as frozen: on the expired state `stAExp`,
`validateCart` does mutate the orchestrator state (recovery replaces the
cached context and writes the provider), even though the validation succeeds. -/
theorem validateCart_mutates_on_expiry :
    (stAExp.validateCart 1000 "cart_0").1 ≠ stAExp ∧
    (stAExp.validateCart 1000 "cart_0").2 =
      Except.ok { valid := true, errors := [] } := by decide

theorem validateCart_pure_without_recovery_witness :
    (findAssoc stA.contextCache "cart_0" = some ctxA ∧ ¬ ctxA.expiresAt < 1000) ∧
    (stA.validateCart 1000 "cart_0").1 = stA ∧
    (stAExp.validateCart 1000 "cart_0").1.shadowState = stAExp.shadowState :=
  ⟨⟨by decide, by decide⟩,
   (validateCart_pure_without_recovery stA 1000 "cart_0" ctxA (by decide) (by decide)).1,
   (validateCart_pure_without_recovery stA 1000 "cart_0" ctxA (by decide) (by decide)).2
     stAExp 1000 "cart_0"⟩

/-- The orchestrator's shadow patch agrees with the provider's in-place
update: if the provider's `findIndex`-and-replace produced `l2`, replacing the
first matching item by the provider's updated item in the same list gives the
same `l2`. -/
theorem replaceFirstItem_of_updateFirstItem (itemId : String) (quantity : ℚ) :
    ∀ (l : List CartItem) (u : CartItem) (l2 : List CartItem),
      updateFirstItem itemId quantity l = some (u, l2) →
      replaceFirstItem itemId u l = some l2 := by
  intro l
  induction l with
  | nil => intro u l2 h; simp [updateFirstItem] at h
  | cons item rest ih =>
    intro u l2 h
    by_cases hid : item.id = itemId
    · simp only [updateFirstItem, if_pos hid, Option.some.injEq, Prod.mk.injEq] at h
      obtain ⟨hu, hl2⟩ := h
      simp only [replaceFirstItem, if_pos hid, Option.some.injEq]
      rw [← hl2, ← hu]
    · simp only [updateFirstItem, if_neg hid] at h
      rcases hr : updateFirstItem itemId quantity rest with _ | ⟨u3, rest3⟩
      · rw [hr] at h
        simp at h
      · rw [hr] at h
        simp only [Option.some.injEq, Prod.mk.injEq] at h
        obtain ⟨hu, hl2⟩ := h
        subst hu
        subst hl2
        simp only [replaceFirstItem, if_neg hid, ih u3 rest3 hr]

/-- Counterexample to C3 as frozen: on `stAExp` (expired context, shadow
holding the phone item under id `item_0`), `addItem` succeeds after an
in-operation recovery, but afterwards the shadow store still holds the phone
under the old id `item_0` while the live store of the new current context
`sf_ctx_1` holds it under the freshly assigned id `item_2` — the stores do not
contain the same item ids. -/
theorem shadow_live_ids_diverge_after_recovery :
    (stAExp.addItem 1000 "cart_0" "addon_insurance" 1).2 =
      Except.ok (buildCart 1000 "cart_0" [phoneItemA, addonAfterRecovery]) ∧
    (findAssoc (stAExp.addItem 1000 "cart_0" "addon_insurance" 1).1.contextCache
        "cart_0").map SalesforceContext.contextId = some "sf_ctx_1" ∧
    findAssoc (stAExp.addItem 1000 "cart_0" "addon_insurance" 1).1.shadowState "cart_0" =
      some [phoneItemA, addonAfterRecovery] ∧
    findAssoc (stAExp.addItem 1000 "cart_0" "addon_insurance" 1).1.sfClient.cartItems
        "sf_ctx_1" = some [refreshedPhoneItem, addonAfterRecovery] ∧
    ([phoneItemA, addonAfterRecovery] : List CartItem) ≠
      [refreshedPhoneItem, addonAfterRecovery] := by decide

/-- Claim C3 (amended): after a successful mutating operation (`addItem`,
`updateItem`, `removeItem`) during which no recovery took place (the cached
context had not expired at call time), and starting from shadow and live
stores holding the same item sequence, the two stores again hold the same
item sequence — ids, product ids, quantities and prices included. (When a
recovery happens inside the operation the stores keep the same line data but
diverge on item ids — see the counterexample.) -/
theorem stores_synced_after_mutation_without_recovery (st : CartService) (now : ℤ)
    (cartId : String) (context : SalesforceContext)
    (hctx : findAssoc st.contextCache cartId = some context)
    (hnotexp : ¬ context.expiresAt < now)
    (hsync : (findAssoc st.shadowState cartId).getD [] =
             (findAssoc st.sfClient.cartItems context.contextId).getD []) :
    (∀ productId quantity st2 cart,
      st.addItem now cartId productId quantity = (st2, Except.ok cart) →
      (findAssoc st2.shadowState cartId).getD [] =
        (findAssoc st2.sfClient.cartItems context.contextId).getD []) ∧
    (∀ itemId quantity st2 cart,
      st.updateItem now cartId itemId quantity = (st2, Except.ok cart) →
      (findAssoc st2.shadowState cartId).getD [] =
        (findAssoc st2.sfClient.cartItems context.contextId).getD []) ∧
    (∀ itemId st2 cart,
      st.removeItem now cartId itemId = (st2, Except.ok cart) →
      (findAssoc st2.shadowState cartId).getD [] =
        (findAssoc st2.sfClient.cartItems context.contextId).getD []) := by
  have hensure := ensureValidContext_live st now cartId context hctx hnotexp
  refine ⟨?_, ?_, ?_⟩
  · intro productId quantity st2 cart hrun
    rcases hprod : findAssoc products productId with _ | product
    · simp [CartService.addItem, hprod] at hrun
    · simp only [CartService.addItem, hprod, hensure] at hrun
      by_cases hv : st.sfClient.isContextValid now context.contextId = true
      · simp only [getCartItems_valid _ _ _ hv] at hrun
        by_cases hca : (canAddItemType
            ((findAssoc st.sfClient.cartItems context.contextId).getD [])
            product.type).allowed = true
        · simp only [if_pos hca, addItem_valid _ _ _ _ hv] at hrun
          injection hrun with h1 h2
          subst h1
          rw [show CartService.shadowState { st with
                sfClient := { st.sfClient with
                  cartItems := setAssoc st.sfClient.cartItems context.contextId
                    (((findAssoc st.sfClient.cartItems context.contextId).getD []) ++
                      [itemFromRequest st.sfClient.nextId
                        { productId := product.id, productName := product.name,
                          productType := product.type, quantity := quantity,
                          unitPrice := product.price,
                          totalPrice := calculateItemTotal product.price quantity }]),
                  nextId := st.sfClient.nextId + 1 },
                shadowState := setAssoc st.shadowState cartId
                  (((findAssoc st.shadowState cartId).getD []) ++
                    [itemFromRequest st.sfClient.nextId
                      { productId := product.id, productName := product.name,
                        productType := product.type, quantity := quantity,
                        unitPrice := product.price,
                        totalPrice := calculateItemTotal product.price quantity }]) } =
              setAssoc st.shadowState cartId
                (((findAssoc st.shadowState cartId).getD []) ++
                  [itemFromRequest st.sfClient.nextId
                    { productId := product.id, productName := product.name,
                      productType := product.type, quantity := quantity,
                      unitPrice := product.price,
                      totalPrice := calculateItemTotal product.price quantity }]) from rfl]
          rw [findAssoc_setAssoc_self, findAssoc_setAssoc_self]
          simp only [Option.getD_some]
          rw [hsync]
        · simp only [if_neg hca] at hrun
          simp at hrun
      · simp only [getCartItems_invalid _ _ _ hv] at hrun
        simp at hrun
  · intro itemId quantity st2 cart hrun
    simp only [CartService.updateItem, hensure] at hrun
    by_cases hv : st.sfClient.isContextValid now context.contextId = true
    · simp only [updateItem_valid _ _ _ _ _ hv] at hrun
      rcases hupd : updateFirstItem itemId quantity
          ((findAssoc st.sfClient.cartItems context.contextId).getD []) with _ | ⟨u, l2⟩
      · simp only [hupd] at hrun
        simp at hrun
      · simp only [hupd, hsync,
          replaceFirstItem_of_updateFirstItem itemId quantity _ u l2 hupd] at hrun
        injection hrun with h1 h2
        subst h1
        rw [findAssoc_setAssoc_self, findAssoc_setAssoc_self]
    · simp only [updateItem_invalid _ _ _ _ _ hv] at hrun
      simp at hrun
  · intro itemId st2 cart hrun
    simp only [CartService.removeItem, hensure] at hrun
    by_cases hv : st.sfClient.isContextValid now context.contextId = true
    · simp only [removeItem_valid _ _ _ _ hv] at hrun
      rcases hrem : removeFirstItem itemId
          ((findAssoc st.sfClient.cartItems context.contextId).getD []) with _ | l2
      · simp only [hrem] at hrun
        simp at hrun
      · simp only [hrem, hsync] at hrun
        injection hrun with h1 h2
        subst h1
        rw [findAssoc_setAssoc_self, findAssoc_setAssoc_self]
    · simp only [removeItem_invalid _ _ _ _ hv] at hrun
      simp at hrun

theorem stores_synced_after_mutation_without_recovery_witness :
    (findAssoc stA.contextCache "cart_0" = some ctxA ∧
     ¬ ctxA.expiresAt < 1000 ∧
     (findAssoc stA.shadowState "cart_0").getD [] =
       (findAssoc stA.sfClient.cartItems "sf_ctx_0").getD []) ∧
    (findAssoc (stA.addItem 1000 "cart_0" "addon_insurance" 1).1.shadowState "cart_0").getD [] =
      (findAssoc (stA.addItem 1000 "cart_0" "addon_insurance" 1).1.sfClient.cartItems
        "sf_ctx_0").getD [] :=
  ⟨⟨by decide, by decide, by decide⟩,
   (stores_synced_after_mutation_without_recovery stA 1000 "cart_0" ctxA
       (by decide) (by decide) (by decide)).1 "addon_insurance" 1
     (stA.addItem 1000 "cart_0" "addon_insurance" 1).1
     (buildCart 1000 "cart_0" [phoneItemA, newAddonA]) (by decide)⟩

/-- Counterexample to C4 as frozen: on a cart already holding the 50-item
maximum — one of them a PHONE — adding another phone fails with the max-items
message, not with "Only one phone is allowed per cart": the max-items check in
`canAddItemType` runs first. -/
theorem addItem_full_cart_phone_gets_max_items_error :
    stFull.addItem 1000 "cart_0" "phone_samsung_s24" 1 =
      (stFull, Except.error (CartError.businessRule msgMaxItemsAdd)) ∧
    msgMaxItemsAdd ≠ msgOnePhone := by decide

/-- Claim C4 (amended): for every cart whose current live items include a
PHONE item and number fewer than the 50-item maximum, and whose cached context
is still valid at call time, `addItem` of any PHONE product fails with the
business-rule error "Only one phone is allowed per cart" and returns the state
completely unchanged — provider stores, shadow store and context cache — the
rule check running before the provider's `addItem` is ever called. -/
theorem addItem_second_phone_rejected_unchanged (st : CartService) (now : ℤ)
    (cartId productId : String) (context : SalesforceContext) (product : Product)
    (hctx : findAssoc st.contextCache cartId = some context)
    (hsync : findAssoc st.sfClient.contexts context.contextId = some context)
    (hvalid : now < context.expiresAt)
    (hprod : findAssoc products productId = some product)
    (htype : product.type = "PHONE")
    (hphone : 0 < (((findAssoc st.sfClient.cartItems context.contextId).getD []).filter
        (fun item => item.productType == "PHONE")).length)
    (hlt : ((findAssoc st.sfClient.cartItems context.contextId).getD []).length <
        maxItemsPerCart) :
    ∀ quantity, st.addItem now cartId productId quantity =
      (st, Except.error (CartError.businessRule msgOnePhone)) := by
  intro quantity
  have hnotexp : ¬ context.expiresAt < now := not_lt.mpr (le_of_lt hvalid)
  have hensure := ensureValidContext_live st now cartId context hctx hnotexp
  have hv : st.sfClient.isContextValid now context.contextId = true :=
    isContextValid_true _ now context hsync hvalid
  simp only [CartService.addItem, hprod, hensure, getCartItems_valid _ _ _ hv]
  have hca : canAddItemType ((findAssoc st.sfClient.cartItems context.contextId).getD [])
      product.type = { allowed := false, reason := some msgOnePhone } := by
    unfold canAddItemType
    rw [if_neg (not_le.mpr hlt), if_pos ⟨htype, hphone⟩]
  rw [hca]
  simp

theorem addItem_second_phone_rejected_unchanged_witness :
    (findAssoc stA.contextCache "cart_0" = some ctxA ∧
     findAssoc stA.sfClient.contexts "sf_ctx_0" = some ctxA ∧
     (1000 : ℤ) < ctxA.expiresAt ∧
     0 < (((findAssoc stA.sfClient.cartItems "sf_ctx_0").getD []).filter
        (fun item => item.productType == "PHONE")).length ∧
     ((findAssoc stA.sfClient.cartItems "sf_ctx_0").getD []).length < maxItemsPerCart) ∧
    stA.addItem 1000 "cart_0" "phone_samsung_s24" 2 =
      (stA, Except.error (CartError.businessRule msgOnePhone)) :=
  ⟨⟨by decide, by decide, by decide, by decide, by decide⟩,
   addItem_second_phone_rejected_unchanged stA 1000 "cart_0" "phone_samsung_s24" ctxA
     ⟨"phone_samsung_s24", "Samsung Galaxy S24", "PHONE", 119999/100, false⟩
     (by decide) (by decide) (by decide) (by decide) (by decide) (by decide) (by decide) 2⟩

/-- Counterexample to C7 as frozen: `stPlan` holds zero PHONE items (its only
item is a plan), yet `addItem` of the PLAN product `plan_5gb` does not
succeed — it fails on the one-plan-per-cart rule. The universal "every cart
containing zero PHONE items accepts a PLAN" is therefore false. -/
theorem addItem_plan_rejected_on_plan_only_cart :
    stPlan.addItem 1000 "cart_0" "plan_5gb" 1 =
      (stPlan, Except.error (CartError.businessRule msgOnePlan)) := by decide

/-- Claim C7 (amended): adding a PLAN product performs no phone-requirement
check — for every cart with zero PHONE items, zero PLAN items and fewer than
50 live items (context valid at call time), `addItem` of a PLAN product
succeeds for every quantity; and `validateCart` on the cart whose item list is
exactly one PLAN item (price 85.00, quantity 1) returns valid = false with the
single message "Cart contains plans but no phone. Plans require a phone.". -/
theorem addItem_plan_without_phone_check (st : CartService) (now : ℤ)
    (cartId productId : String) (context : SalesforceContext) (product : Product)
    (hctx : findAssoc st.contextCache cartId = some context)
    (hsync : findAssoc st.sfClient.contexts context.contextId = some context)
    (hvalid : now < context.expiresAt)
    (hprod : findAssoc products productId = some product)
    (htype : product.type = "PLAN")
    (hnophone : (((findAssoc st.sfClient.cartItems context.contextId).getD []).filter
        (fun item => item.productType == "PHONE")).length = 0)
    (hnoplan : (((findAssoc st.sfClient.cartItems context.contextId).getD []).filter
        (fun item => item.productType == "PLAN")).length = 0)
    (hlt : ((findAssoc st.sfClient.cartItems context.contextId).getD []).length <
        maxItemsPerCart) :
    (∀ quantity, ∃ st2 cart,
      st.addItem now cartId productId quantity = (st2, Except.ok cart)) ∧
    (stPlan.validateCart 1000 "cart_0").2 =
      Except.ok { valid := false, errors := [msgPlanNoPhone] } := by
  constructor
  · intro quantity
    have hnotexp : ¬ context.expiresAt < now := not_lt.mpr (le_of_lt hvalid)
    have hensure := ensureValidContext_live st now cartId context hctx hnotexp
    have hv : st.sfClient.isContextValid now context.contextId = true :=
      isContextValid_true _ now context hsync hvalid
    have hca : canAddItemType ((findAssoc st.sfClient.cartItems context.contextId).getD [])
        product.type = { allowed := true } := by
      unfold canAddItemType
      rw [if_neg (not_le.mpr hlt)]
      rw [if_neg (fun h => by rw [htype] at h; exact absurd h.1 (by decide))]
      rw [if_neg (fun h => by rw [hnoplan] at h; exact absurd h.2 (by decide))]
    simp only [CartService.addItem, hprod, hensure, getCartItems_valid _ _ _ hv, hca]
    simp only [addItem_valid _ _ _ _ hv]
    exact ⟨_, _, rfl⟩
  · decide

theorem addItem_plan_without_phone_check_witness :
    (findAssoc scenarioStep1.contextCache "cart_0" = some ctxA ∧
     findAssoc scenarioStep1.sfClient.contexts "sf_ctx_0" = some ctxA ∧
     (1000 : ℤ) < ctxA.expiresAt ∧
     (((findAssoc scenarioStep1.sfClient.cartItems "sf_ctx_0").getD []).filter
        (fun item => item.productType == "PHONE")).length = 0 ∧
     (((findAssoc scenarioStep1.sfClient.cartItems "sf_ctx_0").getD []).filter
        (fun item => item.productType == "PLAN")).length = 0 ∧
     ((findAssoc scenarioStep1.sfClient.cartItems "sf_ctx_0").getD []).length <
        maxItemsPerCart) ∧
    (∃ st2 cart,
      scenarioStep1.addItem 1000 "cart_0" "plan_unlimited" 1 = (st2, Except.ok cart)) ∧
    (stPlan.validateCart 1000 "cart_0").2 =
      Except.ok { valid := false, errors := [msgPlanNoPhone] } := by
  have h := addItem_plan_without_phone_check scenarioStep1 1000 "cart_0" "plan_unlimited" ctxA
    ⟨"plan_unlimited", "Unlimited Plan", "PLAN", 85, true⟩
    (by decide) (by decide) (by decide) (by decide) (by decide) (by decide) (by decide)
    (by decide)
  exact ⟨⟨by decide, by decide, by decide, by decide, by decide, by decide⟩, h.1 1, h.2⟩

/-- Pushing onto an accumulated error list is appending a singleton. -/
theorem append_if (c : Prop) [Decidable c] (e : List String) (m : String) :
    (if c then e ++ [m] else e) = e ++ (if c then [m] else []) := by
  split <;> simp

theorem hasPhone_false_iff (items : List CartItem) :
    (items.any (fun item => item.productType == "PHONE") = false) ↔ phoneCount items = 0 := by
  simp [phoneCount, List.length_eq_zero, List.filter_eq_nil_iff, List.any_eq_false]

theorem filter_length_pos_iff_any (items : List CartItem)
    (p : CartItem → Bool) : 0 < (items.filter p).length ↔ items.any p = true := by
  rw [List.length_pos]
  simp [List.filter_eq_nil_iff, List.any_eq_true]

/-- The error list produced by `validateCartRules` is the concatenation, in
the fixed source order, of the five singleton messages gated by their rules. -/
theorem validateCartRules_errors (items : List CartItem) :
    (validateCartRules items).errors =
      (if maxItemsPerCart < items.length then [msgMaxItemsValidate] else []) ++
      ((if 0 < planCount items ∧ phoneCount items = 0 then [msgPlanNoPhone] else []) ++
       ((if 1 < phoneCount items then [msgOnePhone] else []) ++
        ((if 1 < planCount items then [msgOnePlan] else []) ++
         (if hasInvalidQuantity items = true then [msgInvalidQty] else [])))) := by
  unfold validateCartRules
  simp only [hasPhone_false_iff, phoneCount, planCount, hasInvalidQuantity,
    filter_length_pos_iff_any]
  split_ifs <;> simp

/-- `valid` is the emptiness bit of the error list. -/
theorem validateCartRules_valid_iff (items : List CartItem) :
    (validateCartRules items).valid = true ↔ (validateCartRules items).errors = [] := by
  unfold validateCartRules
  simp [List.length_eq_zero]

/-- Any stored item with a non-positive or non-integer quantity makes
`validateCartRules` report the invalid-quantities message. -/
theorem invalid_qty_reported (items : List CartItem) (item : CartItem)
    (hmem : item ∈ items)
    (hbad : item.quantity ≤ 0 ∨ isIntegerQty item.quantity = false) :
    msgInvalidQty ∈ (validateCartRules items).errors := by
  rw [validateCartRules_errors]
  have hq : hasInvalidQuantity items = true := by
    simp only [hasInvalidQuantity, List.any_eq_true]
    refine ⟨item, hmem, ?_⟩
    rcases hbad with h | h <;> simp [h]
  simp [hq]

/-- Claim C6: `validateCartRules` evaluates the rules and appends their
messages in the fixed source order — max-item-count, then plan-without-phone,
then multiple-phones, then multiple-plans, then invalid-quantities — `valid`
is true exactly when the error list is empty, and a cart violating four rules
at once receives its four messages in exactly that order. -/
theorem validateCart_rule_order (items : List CartItem) :
    ((validateCartRules items).errors =
      (if maxItemsPerCart < items.length then [msgMaxItemsValidate] else []) ++
      ((if 0 < planCount items ∧ phoneCount items = 0 then [msgPlanNoPhone] else []) ++
       ((if 1 < phoneCount items then [msgOnePhone] else []) ++
        ((if 1 < planCount items then [msgOnePlan] else []) ++
         (if hasInvalidQuantity items = true then [msgInvalidQty] else []))))) ∧
    ((validateCartRules items).valid = true ↔ (validateCartRules items).errors = []) ∧
    validateCartRules multiViolationItems =
      { valid := false,
        errors := [msgMaxItemsValidate, msgPlanNoPhone, msgOnePlan, msgInvalidQty] } :=
  ⟨validateCartRules_errors items, validateCartRules_valid_iff items, by decide⟩

/-- An exact hundredth times an integer is already rounded: the unrounded
product the provider stores on update coincides with the rounded one whenever
the unit price has at most two decimals and the quantity is an integer. -/
theorem round2_hundredth_mul_int (c n : ℤ) :
    ((c : ℚ) / 100) * (n : ℚ) = round2 (((c : ℚ) / 100) * (n : ℚ)) := by
  rw [show ((c : ℚ) / 100) * (n : ℚ) = ((c * n : ℤ) : ℚ) / 100 by push_cast; ring]
  rw [round2_int_div]

/-- Counterexample to C5 as frozen: `updateItem` to quantity 1/2 builds a cart
view whose line item stores the unrounded total 699.995; the view violates
"each line total equals round(unitPrice × quantity, 2dp)". -/
theorem cart_view_line_total_unrounded_after_update :
    (stA.updateItem 1000 "cart_0" "item_0" (1/2)).2 =
      Except.ok (buildCart 1000 "cart_0" [halfPhoneItem]) ∧
    halfPhoneItem.totalPrice ≠
      round2 (halfPhoneItem.unitPrice * halfPhoneItem.quantity) := by decide

/-- Claim C5 (amended): for every cart view the orchestrator builds, subtotal
= round2(sum of stored line totals), tax = round2(subtotal × 0.13) and total =
round2(subtotal + tax), each rounding step independent; the line total
computed at add time equals round2(unitPrice × quantity), and the unrounded
line total written by updateItem coincides with the rounded one for 2-decimal
unit prices and integer quantities (for non-integer quantities it does not —
see the counterexample); and the concrete scenario — initialize, add
phone_iphone15 (1399.99, qty 1), add addon_insurance (12.00, qty 1) — yields
subtotal 1411.99, tax 183.56, total 1595.55. -/
theorem cart_view_pricing (now : ℤ) (cartId : String) (items : List CartItem)
    (unitPrice quantity : ℚ) (c n : ℤ) :
    (buildCart now cartId items).subtotal =
      round2 (items.foldl (fun sum item => sum + item.totalPrice) 0) ∧
    (buildCart now cartId items).tax =
      round2 ((buildCart now cartId items).subtotal * (13/100)) ∧
    (buildCart now cartId items).total =
      round2 ((buildCart now cartId items).subtotal + (buildCart now cartId items).tax) ∧
    calculateItemTotal unitPrice quantity = round2 (unitPrice * quantity) ∧
    ((c : ℚ) / 100) * (n : ℚ) = round2 (((c : ℚ) / 100) * (n : ℚ)) ∧
    scenarioResult.map Cart.subtotal = Except.ok (141199/100 : ℚ) ∧
    scenarioResult.map Cart.tax = Except.ok (18356/100 : ℚ) ∧
    scenarioResult.map Cart.total = Except.ok (159555/100 : ℚ) :=
  ⟨rfl, rfl, rfl, rfl, round2_hundredth_mul_int c n, by decide, by decide, by decide⟩

/-- The item the provider's `findIndex`-and-replace returns carries the new
quantity and the unrounded product of the stored unit price and that
quantity. -/
theorem updateFirstItem_spec (itemId : String) (quantity : ℚ) :
    ∀ (l : List CartItem) (u : CartItem) (l2 : List CartItem),
      updateFirstItem itemId quantity l = some (u, l2) →
      u.quantity = quantity ∧ u.totalPrice = u.unitPrice * quantity := by
  intro l
  induction l with
  | nil => intro u l2 h; simp [updateFirstItem] at h
  | cons hd rest ih =>
    intro u l2 h
    by_cases hid : hd.id = itemId
    · simp only [updateFirstItem, if_pos hid, Option.some.injEq, Prod.mk.injEq] at h
      obtain ⟨hu, _⟩ := h
      rw [← hu]
      exact ⟨rfl, rfl⟩
    · simp only [updateFirstItem, if_neg hid] at h
      rcases hr : updateFirstItem itemId quantity rest with _ | ⟨u3, rest3⟩
      · rw [hr] at h
        simp at h
      · rw [hr] at h
        simp only [Option.some.injEq, Prod.mk.injEq] at h
        obtain ⟨hu, _⟩ := h
        rw [← hu]
        exact ih u3 rest3 hr

/-- Counterexample to C8 as frozen: the provider's `updateItem` stores
`unitPrice * quantity` without rounding — updating the 1399.99 phone to
quantity 1/4 stores 349.9975, not the rounded 350.00. -/
theorem provider_update_total_price_unrounded :
    (stA.sfClient.updateItem 1000 "sf_ctx_0" "item_0" (1/4)).map Prod.fst =
      Except.ok quarterPhoneItem ∧
    quarterPhoneItem.totalPrice ≠
      round2 (quarterPhoneItem.unitPrice * quarterPhoneItem.quantity) := by decide

/-- Claim C8 (amended): the provider's `updateItem` recomputes the stored
total as `unitPrice × quantity` exactly, without rounding; since catalog unit
prices have at most two decimals, the rounded invariant `totalPrice =
round2(unitPrice × quantity)` still holds whenever the new quantity is an
integer, but not in general (see the counterexample). -/
theorem updateItem_total_price_recomputed (s : SalesforceCartClient) (now : ℤ)
    (contextId itemId : String) (quantity : ℚ) (item : CartItem)
    (s2 : SalesforceCartClient)
    (h : s.updateItem now contextId itemId quantity = Except.ok (item, s2)) :
    item.quantity = quantity ∧
    item.totalPrice = item.unitPrice * quantity ∧
    (∀ c n : ℤ, item.unitPrice = (c : ℚ) / 100 → quantity = (n : ℚ) →
      item.totalPrice = round2 (item.unitPrice * item.quantity)) := by
  by_cases hv : s.isContextValid now contextId = true
  · rw [updateItem_valid _ _ _ _ _ hv] at h
    rcases hupd : updateFirstItem itemId quantity ((findAssoc s.cartItems contextId).getD [])
      with _ | ⟨u, l2⟩
    · rw [hupd] at h
      simp at h
    · rw [hupd] at h
      simp only [Except.ok.injEq, Prod.mk.injEq] at h
      obtain ⟨hu, _⟩ := h
      obtain ⟨hq, ht⟩ := updateFirstItem_spec itemId quantity _ u l2 hupd
      subst hu
      refine ⟨hq, ht, ?_⟩
      intro c n hup hqn
      rw [ht, hq, hup, hqn]
      exact round2_hundredth_mul_int c n
  · rw [updateItem_invalid _ _ _ _ _ hv] at h
    simp at h

theorem updateItem_total_price_recomputed_witness :
    stA.sfClient.updateItem 1000 "sf_ctx_0" "item_0" 3 = Except.ok (item3A, sfAfterUpdate3) ∧
    item3A.quantity = 3 ∧
    item3A.totalPrice = item3A.unitPrice * 3 ∧
    item3A.totalPrice = round2 (item3A.unitPrice * item3A.quantity) :=
  ⟨by decide,
   (updateItem_total_price_recomputed stA.sfClient 1000 "sf_ctx_0" "item_0" 3 item3A
      sfAfterUpdate3 (by decide)).1,
   (updateItem_total_price_recomputed stA.sfClient 1000 "sf_ctx_0" "item_0" 3 item3A
      sfAfterUpdate3 (by decide)).2.1,
   (updateItem_total_price_recomputed stA.sfClient 1000 "sf_ctx_0" "item_0" 3 item3A
      sfAfterUpdate3 (by decide)).2.2 139999 3 (by decide) (by decide)⟩

/-- If `find?` locates an item by id, the provider's update replaces exactly
that (first) occurrence: the store keeps every other item, the lookup now
yields the updated item, and the updated item is a member of the new list. -/
theorem updateFirstItem_of_find (itemId : String) (quantity : ℚ) :
    ∀ (l : List CartItem) (item : CartItem),
      l.find? (fun i => i.id == itemId) = some item →
      ∃ l2, updateFirstItem itemId quantity l =
          some ({ item with quantity := quantity, totalPrice := item.unitPrice * quantity },
            l2) ∧
        l2.find? (fun i => i.id == itemId) =
          some { item with quantity := quantity, totalPrice := item.unitPrice * quantity } ∧
        { item with quantity := quantity, totalPrice := item.unitPrice * quantity } ∈ l2 := by
  intro l
  induction l with
  | nil => intro item h; simp at h
  | cons hd rest ih =>
    intro item h
    by_cases hid : hd.id = itemId
    · rw [List.find?_cons_of_pos rest (by simp [hid])] at h
      simp only [Option.some.injEq] at h
      subst h
      refine ⟨{ hd with quantity := quantity, totalPrice := hd.unitPrice * quantity } :: rest,
        ?_, ?_, ?_⟩
      · simp only [updateFirstItem, if_pos hid]
      · exact List.find?_cons_of_pos rest (by simp [hid])
      · exact List.mem_cons_self _ _
    · rw [List.find?_cons_of_neg rest (by simp [hid])] at h
      obtain ⟨l2, h1, h2, h3⟩ := ih item h
      refine ⟨hd :: l2, ?_, ?_, ?_⟩
      · simp only [updateFirstItem, if_neg hid, h1]
      · rw [List.find?_cons_of_neg l2 (by simp [hid])]
        exact h2
      · exact List.mem_cons_of_mem hd h3

/-- Claim C10: the orchestrator's `updateItem` performs no business-rule or
quantity validation — on a cart with a valid (unexpired) context whose live
store contains an item with the given id, it succeeds for every rational
quantity (zero, negative, non-integer, above the per-line maximum of 10
included), the provider storing quantity q and the unrounded total
`unitPrice * q`; only a later `validateCart` reports a non-positive or
non-integer quantity through the invalid-quantities message. -/
theorem updateItem_accepts_any_quantity (st : CartService) (now : ℤ)
    (cartId itemId : String) (context : SalesforceContext) (item : CartItem)
    (hctx : findAssoc st.contextCache cartId = some context)
    (hsync : findAssoc st.sfClient.contexts context.contextId = some context)
    (hvalid : now < context.expiresAt)
    (hfind : ((findAssoc st.sfClient.cartItems context.contextId).getD []).find?
        (fun i => i.id == itemId) = some item) :
    ∀ quantity : ℚ, ∃ st2 cart,
      st.updateItem now cartId itemId quantity = (st2, Except.ok cart) ∧
      ((findAssoc st2.sfClient.cartItems context.contextId).getD []).find?
          (fun i => i.id == itemId) =
        some { item with quantity := quantity, totalPrice := item.unitPrice * quantity } ∧
      ((quantity ≤ 0 ∨ isIntegerQty quantity = false) →
        msgInvalidQty ∈ (validateCartRules
          ((findAssoc st2.sfClient.cartItems context.contextId).getD [])).errors) := by
  intro quantity
  have hnotexp : ¬ context.expiresAt < now := not_lt.mpr (le_of_lt hvalid)
  have hensure := ensureValidContext_live st now cartId context hctx hnotexp
  have hv : st.sfClient.isContextValid now context.contextId = true :=
    isContextValid_true _ now context hsync hvalid
  obtain ⟨l2, h1, h2, h3⟩ := updateFirstItem_of_find itemId quantity _ item hfind
  simp only [CartService.updateItem, hensure, updateItem_valid _ _ _ _ _ hv, h1]
  rcases hrep : replaceFirstItem itemId
      { item with quantity := quantity, totalPrice := item.unitPrice * quantity }
      ((findAssoc st.shadowState cartId).getD []) with _ | l3
  · refine ⟨{ st with
        sfClient := { st.sfClient with
                      cartItems := setAssoc st.sfClient.cartItems context.contextId l2 } },
      _, rfl, ?_, ?_⟩
    · show ((findAssoc (setAssoc st.sfClient.cartItems context.contextId l2)
          context.contextId).getD []).find? (fun i => i.id == itemId) = _
      rw [findAssoc_setAssoc_self]
      exact h2
    · intro hbad
      show msgInvalidQty ∈ (validateCartRules ((findAssoc (setAssoc st.sfClient.cartItems
          context.contextId l2) context.contextId).getD [])).errors
      rw [findAssoc_setAssoc_self]
      exact invalid_qty_reported l2 _ h3 hbad
  · refine ⟨{ st with
        sfClient := { st.sfClient with
                      cartItems := setAssoc st.sfClient.cartItems context.contextId l2 },
        shadowState := setAssoc st.shadowState cartId l3 },
      _, rfl, ?_, ?_⟩
    · show ((findAssoc (setAssoc st.sfClient.cartItems context.contextId l2)
          context.contextId).getD []).find? (fun i => i.id == itemId) = _
      rw [findAssoc_setAssoc_self]
      exact h2
    · intro hbad
      show msgInvalidQty ∈ (validateCartRules ((findAssoc (setAssoc st.sfClient.cartItems
          context.contextId l2) context.contextId).getD [])).errors
      rw [findAssoc_setAssoc_self]
      exact invalid_qty_reported l2 _ h3 hbad

theorem updateItem_accepts_any_quantity_witness :
    (findAssoc stA.contextCache "cart_0" = some ctxA ∧
     findAssoc stA.sfClient.contexts "sf_ctx_0" = some ctxA ∧
     (1000 : ℤ) < ctxA.expiresAt ∧
     ((findAssoc stA.sfClient.cartItems "sf_ctx_0").getD []).find?
        (fun i => i.id == "item_0") = some phoneItemA) ∧
    (∃ st2 cart,
      stA.updateItem 1000 "cart_0" "item_0" (-3) = (st2, Except.ok cart) ∧
      ((findAssoc st2.sfClient.cartItems "sf_ctx_0").getD []).find?
          (fun i => i.id == "item_0") =
        some { phoneItemA with quantity := -3, totalPrice := phoneItemA.unitPrice * (-3) } ∧
      (((-3 : ℚ) ≤ 0 ∨ isIntegerQty (-3 : ℚ) = false) →
        msgInvalidQty ∈ (validateCartRules
          ((findAssoc st2.sfClient.cartItems "sf_ctx_0").getD [])).errors)) :=
  ⟨⟨by decide, by decide, by decide, by decide⟩,
   updateItem_accepts_any_quantity stA 1000 "cart_0" "item_0" ctxA phoneItemA
     (by decide) (by decide) (by decide) (by decide) (-3)⟩

end TelecomCart
